import Mathlib

/-!
Shallow embedding of src/tcex/tcex_request.py: the TcExRequest builder
class and the session_retry transport configuration. Python dicts become
association lists with in-place, order-preserving key update; dynamic
attribute values become the PyVal type; Python exceptions become the
Except monad carrying a PyExc record (exception class name and message).
-/

/-- A Python exception: its class name and its message. -/
structure PyExc where
  kind : String
  msg : String
deriving DecidableEq, Repr

/-- A dynamically typed Python value, covering the cases the module handles. -/
inductive PyVal where
  | noneV : PyVal
  | bool (b : Bool) : PyVal
  | int (n : Int) : PyVal
  | str (s : String) : PyVal
  | dict (d : List (String × String)) : PyVal
deriving DecidableEq, Repr

/-- Whether a value is an instance of int in Python; bool is a subclass of int. -/
def PyVal.isInt : PyVal → Bool
  | .int _ => true
  | .bool _ => true
  | _ => false

/-- Whether a value is an instance of dict in Python. -/
def PyVal.isDict : PyVal → Bool
  | .dict _ => true
  | _ => false

/-- Python dict assignment d[k] = v: replace in place when the key exists
(keys are unique by construction), otherwise append at the end. -/
def dictSet {α : Type} : List (String × α) → String → α → List (String × α)
  | [], k, v => [(k, v)]
  | (k1, v1) :: rest, k, v =>
    if k1 = k then (k, v) :: rest else (k1, v1) :: dictSet rest k v

/-- Python dict lookup d.get(k). -/
def dictGet {α : Type} : List (String × α) → String → Option α
  | [], _ => Option.none
  | (k1, v1) :: rest, k => if k1 = k then some v1 else dictGet rest k

/-- Python dict.update(other): assign every pair of other in order. -/
def dictUpdate {α : Type} (d other : List (String × α)) : List (String × α) :=
  other.foldl (fun acc p => dictSet acc p.1 p.2) d

/-- A payload value: a single string, or a list accumulated by append mode. -/
inductive PVal where
  | s (v : String) : PVal
  | l (vs : List String) : PVal
deriving DecidableEq, Repr

/-- One base64 alphabet character for an index below 64. -/
def b64Char (n : Nat) : Char :=
  if n < 26 then Char.ofNat (65 + n)
  else if n < 52 then Char.ofNat (97 + n - 26)
  else if n < 62 then Char.ofNat (48 + n - 52)
  else if n = 62 then Char.ofNat 43
  else Char.ofNat 47

/-- Standard base64 of a byte list (RFC 4648), as base64.b64encode does. -/
def b64encodeBytes : List Nat → String
  | [] => ""
  | [a] => String.mk [b64Char (a / 4), b64Char (a % 4 * 16)] ++ "=="
  | [a, b] => String.mk [b64Char (a / 4), b64Char (a % 4 * 16 + b / 16), b64Char (b % 16 * 4)] ++ "="
  | a :: b :: c :: rest =>
    String.mk [b64Char (a / 4), b64Char (a % 4 * 16 + b / 16),
      b64Char (b % 16 * 4 + c / 64), b64Char (c % 64)] ++ b64encodeBytes rest

/-- Bytes of a string under utf-8, modelled for the ASCII range where each
character is one byte (credentials in the module are treated as ASCII). -/
def strBytes (s : String) : List Nat := s.data.map Char.toNat

/-- base64.b64encode of the utf-8 encoding of a string, decoded back to str. -/
def b64encodeStr (s : String) : String := b64encodeBytes (strBytes s)

/-- Uppercasing of one character, as str.upper acts on the ASCII range. -/
def pyUpperChar (c : Char) : Char :=
  if 97 ≤ c.toNat ∧ c.toNat ≤ 122 then Char.ofNat (c.toNat - 32) else c

/-- str.upper on a string (the module applies it to HTTP method names). -/
def pyUpper (s : String) : String := String.mk (s.data.map pyUpperChar)

/-- A JSON value, as passed to the json property setter. -/
inductive Json where
  | null : Json
  | bool (b : Bool) : Json
  | num (n : Int) : Json
  | str (s : String) : Json
  | arr (xs : List Json) : Json
  | obj (m : List (String × Json)) : Json

mutual

/-- Serialization as json.dumps renders it with default separators. -/
def Json.dumps : Json → String
  | .null => "null"
  | .bool true => "true"
  | .bool false => "false"
  | .num n => toString n
  | .str s => "\"" ++ s ++ "\""
  | .arr xs => "[" ++ Json.dumpsList xs ++ "]"
  | .obj m => "\x7b" ++ Json.dumpsObj m ++ "\x7d"

/-- Comma-separated rendering of a JSON array body. -/
def Json.dumpsList : List Json → String
  | [] => ""
  | [x] => Json.dumps x
  | x :: y :: rest => Json.dumps x ++ ", " ++ Json.dumpsList (y :: rest)

/-- Comma-separated rendering of a JSON object body. -/
def Json.dumpsObj : List (String × Json) → String
  | [] => ""
  | [(k, v)] => "\"" ++ k ++ "\": " ++ Json.dumps v
  | (k, v) :: p :: rest => "\"" ++ k ++ "\": " ++ Json.dumps v ++ ", " ++ Json.dumpsObj (p :: rest)

end

/-- The retry policy built by session_retry and handed to the HTTPAdapter:
the keyword arguments of urllib3 Retry that the module sets, plus the
status category count which the module leaves at its None default. -/
structure RetryPolicy where
  total : Nat
  read : Nat
  connect : Nat
  status : Option Nat
  backoff_factor : ℚ
  status_forcelist : List Nat
deriving DecidableEq, Repr

/-- session_retry(retries, backoff_factor, status_forcelist): the Retry
policy object mounted on the session for https requests. -/
def session_retry (retries : Nat) (backoff_factor : ℚ) (status_forcelist : List Nat) : RetryPolicy :=
  { total := retries, read := retries, connect := retries, status := Option.none,
    backoff_factor := backoff_factor, status_forcelist := status_forcelist }

/-- The call session_retry() with every argument left at its default. -/
def default_session_retry : RetryPolicy := session_retry 3 (3 / 10) [500, 502, 504]

/-- Status-triggered retry loop of urllib3 Retry: a received response is
retried while its status is in the forcelist and budget remains; running
out of budget on a retryable status raises MaxRetryError, and any other
status is returned at once. Returns the surfaced status and how many
retries were spent before it. -/
def statusRetryRun (forcelist : List Nat) (budget : Nat) (server : Nat → Nat) (i : Nat) :
    Except String (Nat × Nat) :=
  let st := server i
  if st ∈ forcelist then
    match budget with
    | 0 => Except.error "MaxRetryError"
    | b + 1 => statusRetryRun forcelist b server (i + 1)
  else Except.ok (st, i)

/-- The prepared request produced by requests.Request(...).prepare() and
then mutated by prepare_headers and prepare_auth. -/
structure PreparedRequest where
  method : String
  url : Option String
  body : Option String
  files : PyVal
  params : List (String × PVal)
  headers : List (String × String)
deriving DecidableEq, Repr

/-- PreparedRequest.prepare_headers(h): install the given header dict. -/
def prepare_headers (p : PreparedRequest) (h : List (String × String)) : PreparedRequest :=
  { p with headers := h }

/-- The Authorization header value HTTP basic auth produces for a
username and password pair. -/
def basicAuthHeaderValue (cred : String × String) : String :=
  "Basic " ++ b64encodeStr (cred.1 ++ ":" ++ cred.2)

/-- PreparedRequest.prepare_auth(cred): HTTP basic auth sets the
Authorization header from the base64 of user:password. -/
def prepare_auth (p : PreparedRequest) (cred : String × String) : PreparedRequest :=
  { p with headers := dictSet p.headers "Authorization" (basicAuthHeaderValue cred) }

/-- The mutable attribute state of a TcExRequest instance. The underscore
prefixes of the Python attributes are dropped. The session object itself is
external; its retry policy is modelled by default_session_retry and its
dispatch by the sess argument of send. -/
structure TcExRequest where
  authorization_method : Option (PreparedRequest → List (String × String))
  basic_auth : Option (String × String)
  body : Option String
  content_type : Option String
  headers : List (String × String)
  http_method : String
  json_attr : Option String
  payload : List (String × PVal)
  proxies : List (String × String)
  url : Option String
  files : PyVal
  timeout : PyVal
  verify_ssl : Bool
  verify : Option PyVal

/-- The state written by TcExRequest.__init__: note that it initializes
the attribute verify_ssl but never the attribute verify. -/
def TcExRequest.init : TcExRequest :=
  { authorization_method := Option.none, basic_auth := Option.none,
    body := Option.none, content_type := Option.none, headers := [],
    http_method := "GET", json_attr := Option.none, payload := [],
    proxies := [], url := Option.none, files := PyVal.noneV,
    timeout := PyVal.int 300, verify_ssl := false, verify := Option.none }

/-- add_header(key, val): store str(val) under key, overwriting. -/
def TcExRequest.add_header (s : TcExRequest) (key val : String) : TcExRequest :=
  { s with headers := dictSet s.headers key val }

/-- The body property setter: only a value that is not None is stored, and
then Content-Length is derived from the stored body. -/
def TcExRequest.set_body (s : TcExRequest) (data : Option String) : TcExRequest :=
  match data with
  | Option.none => s
  | some d =>
    let s1 := { s with body := some d }
    s1.add_header "Content-Length" (toString d.length)

/-- The json property setter: only a value that is not None is serialized
into the body slot, and then Content-Type is forced to application/json. -/
def TcExRequest.set_json (s : TcExRequest) (data : Option Json) : TcExRequest :=
  match data with
  | Option.none => s
  | some d =>
    let s1 := { s with body := some (Json.dumps d) }
    s1.add_header "Content-Type" "application/json"

/-- add_payload(key, val, append): append mode accumulates into a list via
setdefault(key, []).append(val); appending onto an existing single string
value is a Python AttributeError; otherwise the value is overwritten. -/
def add_payload (p : List (String × PVal)) (key val : String) (append : Bool) :
    Except PyExc (List (String × PVal)) :=
  if append then
    match dictGet p key with
    | Option.none => Except.ok (dictSet p key (PVal.l [val]))
    | some (PVal.l vs) => Except.ok (dictSet p key (PVal.l (vs ++ [val])))
    | some (PVal.s _) => Except.error { kind := "AttributeError", msg := "str object has no attribute append" }
  else Except.ok (dictSet p key (PVal.s val))

/-- add_payload as a method on the instance state. -/
def TcExRequest.add_payload_m (s : TcExRequest) (key val : String) (append : Bool) :
    Except PyExc TcExRequest :=
  match add_payload s.payload key val append with
  | Except.ok p => Except.ok { s with payload := p }
  | Except.error e => Except.error e

/-- The http_method property setter: uppercase, accept only the four
methods, auto-set Content-Type for POST and PUT when the content_type
attribute is still None, otherwise raise AttributeError. -/
def TcExRequest.set_http_method (s : TcExRequest) (data : String) : Except PyExc TcExRequest :=
  let d := pyUpper data
  if d ∈ ["DELETE", "GET", "POST", "PUT"] then
    let s1 := { s with http_method := d }
    if s.content_type = Option.none ∧ d ∈ ["POST", "PUT"] then
      Except.ok (s1.add_header "Content-Type" "application/json")
    else
      Except.ok s1
  else
    Except.error { kind := "AttributeError", msg := "Request Object Error: " ++ d ++ " is not a valid HTTP method." }

/-- The timeout property setter: stored only when the value is an int. -/
def TcExRequest.set_timeout (s : TcExRequest) (data : PyVal) : TcExRequest :=
  if data.isInt then { s with timeout := data } else s

/-- The files property setter: stored only when the value is a dict. -/
def TcExRequest.set_files (s : TcExRequest) (data : PyVal) : TcExRequest :=
  if data.isDict then { s with files := data } else s

/-- The verify_ssl property setter: it assigns the attribute verify, not
the attribute verify_ssl that send reads. -/
def TcExRequest.set_verify_ssl (s : TcExRequest) (v : PyVal) : TcExRequest :=
  { s with verify := some v }

/-- The verify_ssl property getter: it reads the attribute verify, which
raises AttributeError while that attribute has never been assigned. -/
def TcExRequest.get_verify_ssl (s : TcExRequest) : Except PyExc PyVal :=
  match s.verify with
  | some v => Except.ok v
  | Option.none =>
    Except.error { kind := "AttributeError", msg := "TcExRequest object has no attribute verify" }

/-- The content_type property setter. -/
def TcExRequest.set_content_type (s : TcExRequest) (data : String) : TcExRequest :=
  let s1 := { s with content_type := some data }
  s1.add_header "Content-Type" data

/-- set_basic_auth(username, password): synthesize the header manually. -/
def TcExRequest.set_basic_auth_m (s : TcExRequest) (username password : String) : TcExRequest :=
  s.add_header "Authorization" (basicAuthHeaderValue (username, password))

/-- Construction and preparation of the outgoing request descriptor at the
top of send: Request(method, url, data, files, params).prepare(). -/
def TcExRequest.prepare (s : TcExRequest) : PreparedRequest :=
  { method := s.http_method, url := s.url, body := s.body, files := s.files,
    params := s.payload, headers := [] }

/-- The header dict after send merges the headers returned by the
authorization method, when one is registered, into the accumulated dict. -/
def TcExRequest.mergedHeaders (s : TcExRequest) : List (String × String) :=
  match s.authorization_method with
  | some m => dictUpdate s.headers (m s.prepare)
  | Option.none => s.headers

/-- The prepared request as handed to session.send: headers installed from
the merged dict, then basic auth applied when credentials are set. -/
def TcExRequest.preparedFinal (s : TcExRequest) : PreparedRequest :=
  let p := prepare_headers s.prepare s.mergedHeaders
  match s.basic_auth with
  | some cred => prepare_auth p cred
  | Option.none => p

/-- A response handle from the transport. -/
structure Response where
  status_code : Nat
deriving DecidableEq, Repr

/-- The keyword arguments send passes to session.send. -/
structure SendParams where
  proxies : List (String × String)
  timeout : PyVal
  verify : Bool
  stream : Bool
deriving DecidableEq, Repr

/-- The keyword arguments of the session.send call inside send: verify is
read from the verify_ssl attribute, which the verify_ssl setter never
writes. -/
def TcExRequest.sendParams (s : TcExRequest) (stream : Bool) : SendParams :=
  { proxies := s.proxies, timeout := s.timeout, verify := s.verify_ssl, stream := stream }

/-- What one send call did: its outcome, the instance state after it (the
header dict mutation persists), the prepared requests the authorization
method was invoked on, and what was handed to session.send. -/
structure SendTrace where
  result : Except PyExc Response
  state : TcExRequest
  cbCalls : List PreparedRequest
  sent : PreparedRequest × SendParams

/-- send(stream): prepare the request, invoke the authorization method on
it and merge the returned headers, install the header dict, apply basic
auth, dispatch through the session (the sess argument), and wrap any
exception from the session into a RuntimeError naming the cause. -/
def TcExRequest.send (s : TcExRequest)
    (sess : PreparedRequest → SendParams → Except PyExc Response) (stream : Bool) : SendTrace :=
  let cbCalls := match s.authorization_method with
    | some _ => [s.prepare]
    | Option.none => []
  let result := match sess s.preparedFinal (s.sendParams stream) with
    | Except.ok r => Except.ok r
    | Except.error e => Except.error { kind := "RuntimeError", msg := "Failed making HTTP request (" ++ e.msg ++ ")." }
  { result := result, state := { s with headers := s.mergedHeaders },
    cbCalls := cbCalls, sent := (s.preparedFinal, s.sendParams stream) }

/-- A transport stub that always succeeds with status 200. -/
def sessOk : PreparedRequest → SendParams → Except PyExc Response :=
  fun _ _ => Except.ok { status_code := 200 }

/-- Looking up the key just assigned returns the assigned value. -/
theorem dictGet_dictSet_self {α : Type} (d : List (String × α)) (k : String) (v : α) :
    dictGet (dictSet d k v) k = some v := by
  induction d with
  | nil => simp [dictSet, dictGet]
  | cons hd tl ih =>
    obtain ⟨k1, v1⟩ := hd
    by_cases h : k1 = k <;> simp [dictSet, dictGet, h, ih]

/-- Assigning one key leaves the lookup of any other key unchanged. -/
theorem dictGet_dictSet_ne {α : Type} (d : List (String × α)) (k k2 : String) (v : α)
    (h : k2 ≠ k) : dictGet (dictSet d k v) k2 = dictGet d k2 := by
  induction d with
  | nil => simp [dictSet, dictGet, Ne.symm h]
  | cons hd tl ih =>
    obtain ⟨k1, v1⟩ := hd
    by_cases h1 : k1 = k
    · subst h1
      simp [dictSet, dictGet, Ne.symm h]
    · by_cases h2 : k1 = k2 <;> simp [dictSet, dictGet, h1, h2, h, ih]

/-- Claim C10: reading the verify_ssl property on a freshly constructed
builder, before the setter has ever been invoked, raises AttributeError,
because the getter reads the attribute verify while the constructor
initializes only verify_ssl. -/
theorem verify_ssl_getter_uninitialized :
    TcExRequest.init.get_verify_ssl =
      Except.error { kind := "AttributeError", msg := "TcExRequest object has no attribute verify" } ∧
    TcExRequest.init.verify = Option.none ∧ TcExRequest.init.verify_ssl = false :=
  ⟨rfl, rfl, rfl⟩

/-- Claim C1, divergence of the code from the claim: send always hands
verify = False to the transport, even after the verify_ssl setter has been
used to enable verification, because the setter writes the attribute
verify while send reads the attribute verify_ssl. -/
theorem send_verify_ignores_setter :
    (TcExRequest.init.send sessOk false).sent.2.verify = false ∧
    ((TcExRequest.init.set_verify_ssl (PyVal.bool true)).send sessOk false).sent.2.verify = false ∧
    (TcExRequest.init.set_verify_ssl (PyVal.bool true)).verify = some (PyVal.bool true) :=
  ⟨rfl, rfl, rfl⟩

/-- Claim C5, counterexample: assigning the empty string to body is not a
no-op; it is stored as the body and it sets a Content-Length header. -/
theorem body_empty_assignment_not_noop :
    (TcExRequest.init.set_body (some "")).body ≠ TcExRequest.init.body ∧
    (TcExRequest.init.set_body (some "")).headers ≠ TcExRequest.init.headers :=
  ⟨by decide, by decide⟩

/-- Claim C5 as amended: assigning an absent (None) value to body is a
no-op; assigning any other value, the empty string included, stores it as
the body and sets the Content-Length header to the string form of the
stored body length. -/
theorem body_setter_amended (s : TcExRequest) (v : String) :
    s.set_body Option.none = s ∧
    (s.set_body (some v)).body = some v ∧
    (s.set_body (some v)).headers = dictSet s.headers "Content-Length" (toString v.length) :=
  ⟨rfl, rfl, rfl⟩

/-- Claim C8: assigning a non-int value to timeout and assigning a
non-dict value to files are silent no-ops leaving the whole state
unchanged, and the constructor defaults are timeout 300 and files None. -/
theorem invalid_timeout_files_noop (s : TcExRequest) (v w : PyVal)
    (hv : v.isInt = false) (hw : w.isDict = false) :
    s.set_timeout v = s ∧ s.set_files w = s ∧
    TcExRequest.init.timeout = PyVal.int 300 ∧ TcExRequest.init.files = PyVal.noneV := by
  refine ⟨?_, ?_, rfl, rfl⟩
  · simp [TcExRequest.set_timeout, hv]
  · simp [TcExRequest.set_files, hw]

/-- Witness for claim C8 at the string value abc of the spec example. -/
theorem invalid_timeout_files_noop_witness :
    TcExRequest.init.set_timeout (PyVal.str "abc") = TcExRequest.init ∧
    TcExRequest.init.set_files (PyVal.str "abc") = TcExRequest.init := by
  have h := invalid_timeout_files_noop TcExRequest.init (PyVal.str "abc") (PyVal.str "abc") rfl rfl
  exact ⟨h.1, h.2.1⟩

/-- Claim C4: the http_method setter uppercases its argument and stores it
exactly when the result is one of the four accepted methods; POST and PUT
additionally force the Content-Type header to application/json when the
content_type attribute is still unset, and otherwise the headers are
untouched; any other value yields an AttributeError whose message carries
the offending (uppercased) value, and no state is produced. -/
theorem http_method_setter_contract (s : TcExRequest) (data : String) :
    (pyUpper data ∈ ["DELETE", "GET", "POST", "PUT"] →
      ∃ s1, s.set_http_method data = Except.ok s1 ∧ s1.http_method = pyUpper data ∧
        ((s.content_type = Option.none ∧ pyUpper data ∈ ["POST", "PUT"]) →
          dictGet s1.headers "Content-Type" = some "application/json") ∧
        (¬ (s.content_type = Option.none ∧ pyUpper data ∈ ["POST", "PUT"]) →
          s1.headers = s.headers)) ∧
    (pyUpper data ∉ ["DELETE", "GET", "POST", "PUT"] →
      s.set_http_method data = Except.error { kind := "AttributeError", msg := "Request Object Error: " ++ pyUpper data ++ " is not a valid HTTP method." }) := by
  constructor
  · intro hmem
    by_cases hc : s.content_type = Option.none ∧ pyUpper data ∈ ["POST", "PUT"]
    · refine ⟨({ s with http_method := pyUpper data } : TcExRequest).add_header "Content-Type" "application/json", ?_, rfl, fun _ => ?_, fun hn => absurd hc hn⟩
      · simp only [TcExRequest.set_http_method]
        rw [if_pos hmem, if_pos hc]
      · exact dictGet_dictSet_self _ _ _
    · refine ⟨{ s with http_method := pyUpper data }, ?_, rfl, fun hcc => absurd hcc hc, fun _ => rfl⟩
      simp only [TcExRequest.set_http_method]
      rw [if_pos hmem, if_neg hc]
  · intro hmem
    simp only [TcExRequest.set_http_method]
    rw [if_neg hmem]

/-- Witness for claim C4: the lowercase string post is normalized to POST,
accepted, and the Content-Type default is applied on the fresh builder. -/
theorem http_method_setter_contract_witness :
    ∃ s1, TcExRequest.init.set_http_method "post" = Except.ok s1 ∧
      s1.http_method = "POST" ∧ dictGet s1.headers "Content-Type" = some "application/json" := by
  obtain ⟨s1, hok, hm, hct, _⟩ :=
    (http_method_setter_contract TcExRequest.init "post").1 (by decide)
  exact ⟨s1, hok, hm.trans (by decide), hct ⟨rfl, by decide⟩⟩

/-- Claim C6: assigning the json property serializes the value into the
body slot and sets the Content-Type header to application/json; assigning
body afterwards overwrites the serialized content while the content-type
header set before remains. -/
theorem json_then_body_interaction (s : TcExRequest) (v : Json) (b : String) :
    (s.set_json (some v)).body = some (Json.dumps v) ∧
    dictGet (s.set_json (some v)).headers "Content-Type" = some "application/json" ∧
    ((s.set_json (some v)).set_body (some b)).body = some b ∧
    dictGet ((s.set_json (some v)).set_body (some b)).headers "Content-Type" = some "application/json" := by
  refine ⟨rfl, dictGet_dictSet_self _ _ _, rfl, ?_⟩
  have h1 : ((s.set_json (some v)).set_body (some b)).headers =
      dictSet (s.set_json (some v)).headers "Content-Length" (toString b.length) := rfl
  rw [h1, dictGet_dictSet_ne _ _ _ _ (by decide)]
  exact dictGet_dictSet_self _ _ _

/-- Claim C7: with append false a second add_payload on the same key
overwrites the value, and two append true calls on a fresh key accumulate
the two values into a list. -/
theorem add_payload_overwrite_and_append (p : List (String × PVal)) (key x y : String) :
    (∀ p1, add_payload p key x false = Except.ok p1 →
      ∃ p2, add_payload p1 key y false = Except.ok p2 ∧ dictGet p2 key = some (PVal.s y)) ∧
    (dictGet p key = Option.none →
      ∃ q1 q2, add_payload p key x true = Except.ok q1 ∧
        add_payload q1 key y true = Except.ok q2 ∧ dictGet q2 key = some (PVal.l [x, y])) := by
  constructor
  · intro p1 h1
    refine ⟨dictSet p1 key (PVal.s y), by simp [add_payload], dictGet_dictSet_self _ _ _⟩
  · intro hf
    refine ⟨dictSet p key (PVal.l [x]), dictSet (dictSet p key (PVal.l [x])) key (PVal.l [x, y]), ?_, ?_, dictGet_dictSet_self _ _ _⟩
    · simp [add_payload, hf]
    · simp [add_payload, dictGet_dictSet_self]

/-- Witness for claim C7 on the tag, x, y example of the spec, starting
from the empty payload dict. -/
theorem add_payload_overwrite_and_append_witness :
    (∃ p2, add_payload [("tag", PVal.s "x")] "tag" "y" false = Except.ok p2 ∧
      dictGet p2 "tag" = some (PVal.s "y")) ∧
    (∃ q1 q2, add_payload [] "tag" "x" true = Except.ok q1 ∧
      add_payload q1 "tag" "y" true = Except.ok q2 ∧
      dictGet q2 "tag" = some (PVal.l ["x", "y"])) := by
  have h := add_payload_overwrite_and_append [] "tag" "x" "y"
  exact ⟨h.1 [("tag", PVal.s "x")] rfl, h.2 rfl⟩

/-- Claim C2: the default policy bound at construction sets total, read
and connect to 3 (with the status category left at None it is capped by
total as well), backoff factor 0.3, and retries exactly the statuses 500,
502 and 504; a response with status 503 is not in the set and is surfaced
immediately with zero retries. -/
theorem default_retry_policy_bounds (server : Nat → Nat) (h503 : server 0 = 503) :
    default_session_retry.total = 3 ∧ default_session_retry.read = 3 ∧
    default_session_retry.connect = 3 ∧ default_session_retry.status = Option.none ∧
    default_session_retry.backoff_factor = 3 / 10 ∧
    default_session_retry.status_forcelist = [500, 502, 504] ∧
    503 ∉ default_session_retry.status_forcelist ∧
    statusRetryRun default_session_retry.status_forcelist default_session_retry.total server 0 =
      Except.ok (503, 0) := by
  refine ⟨rfl, rfl, rfl, rfl, rfl, rfl, by decide, ?_⟩
  show statusRetryRun [500, 502, 504] 3 server 0 = Except.ok (503, 0)
  rw [statusRetryRun]
  simp [h503]

/-- Witness for claim C2: a server that always answers 503 gets its 503
back at once, with no retry spent. -/
theorem default_retry_policy_bounds_witness :
    statusRetryRun default_session_retry.status_forcelist default_session_retry.total
      (fun _ => 503) 0 = Except.ok (503, 0) :=
  (default_retry_policy_bounds (fun _ => 503) rfl).2.2.2.2.2.2.2

/-- Claim C3: in every send, a registered authorization method is invoked
exactly once, on the prepared request; the headers it returns are merged
into the accumulated header dict before that dict is installed on the
prepared request; and basic auth, when set, is applied after the dict and
therefore overwrites the Authorization header. -/
theorem send_authorization_pipeline (s : TcExRequest)
    (m : PreparedRequest → List (String × String))
    (sess : PreparedRequest → SendParams → Except PyExc Response) (stream : Bool)
    (hm : s.authorization_method = some m) :
    (s.send sess stream).cbCalls = [s.prepare] ∧
    (s.send sess stream).state.headers = dictUpdate s.headers (m s.prepare) ∧
    (s.basic_auth = Option.none →
      (s.send sess stream).sent.1.headers = dictUpdate s.headers (m s.prepare)) ∧
    (∀ cred, s.basic_auth = some cred →
      (s.send sess stream).sent.1.headers =
        dictSet (dictUpdate s.headers (m s.prepare)) "Authorization" (basicAuthHeaderValue cred) ∧
      dictGet (s.send sess stream).sent.1.headers "Authorization" = some (basicAuthHeaderValue cred)) := by
  refine ⟨?_, ?_, ?_, ?_⟩
  · simp [TcExRequest.send, hm]
  · simp [TcExRequest.send, TcExRequest.mergedHeaders, hm]
  · intro hb
    simp [TcExRequest.send, TcExRequest.preparedFinal, prepare_headers, TcExRequest.mergedHeaders, hm, hb]
  · intro cred hb
    constructor
    · simp [TcExRequest.send, TcExRequest.preparedFinal, prepare_headers, prepare_auth, TcExRequest.mergedHeaders, hm, hb]
    · have h1 : (s.send sess stream).sent.1.headers =
          dictSet (dictUpdate s.headers (m s.prepare)) "Authorization" (basicAuthHeaderValue cred) := by
        simp [TcExRequest.send, TcExRequest.preparedFinal, prepare_headers, prepare_auth, TcExRequest.mergedHeaders, hm, hb]
      rw [h1]
      exact dictGet_dictSet_self _ _ _

/-- A builder state with both an authorization method returning a Bearer
token and basic auth credentials configured, for the C3 witness. -/
def cbReq : TcExRequest :=
  { TcExRequest.init with
    authorization_method := some (fun _ => [("Authorization", "Bearer t")]),
    basic_auth := some ("u", "p") }

/-- Witness for claim C3: on cbReq the method is invoked once and basic
auth, applied last, overwrites the Bearer header with Basic dTpw. -/
theorem send_authorization_pipeline_witness :
    (cbReq.send sessOk false).cbCalls = [cbReq.prepare] ∧
    dictGet (cbReq.send sessOk false).sent.1.headers "Authorization" = some "Basic dTpw" := by
  have h := send_authorization_pipeline cbReq
    (fun _ => [("Authorization", "Bearer t")]) sessOk false rfl
  refine ⟨h.1, ?_⟩
  rw [(h.2.2.2 ("u", "p") rfl).2]
  decide

/-- Claim C9: an exception raised by the session while dispatching is
wrapped into a RuntimeError whose message names the underlying cause, and
every error surfaced by send carries the RuntimeError kind rather than the
raw transport exception type. -/
theorem send_wraps_transport_exception (s : TcExRequest)
    (sess : PreparedRequest → SendParams → Except PyExc Response) (stream : Bool) (e : PyExc)
    (h : sess s.preparedFinal (s.sendParams stream) = Except.error e) :
    (s.send sess stream).result =
      Except.error { kind := "RuntimeError", msg := "Failed making HTTP request (" ++ e.msg ++ ")." } ∧
    ∀ e2, (s.send sess stream).result = Except.error e2 → e2.kind = "RuntimeError" := by
  have h1 : (s.send sess stream).result =
      Except.error { kind := "RuntimeError", msg := "Failed making HTTP request (" ++ e.msg ++ ")." } := by
    simp [TcExRequest.send, h]
  refine ⟨h1, ?_⟩
  intro e2 h2
  rw [h1] at h2
  injection h2 with h3
  rw [← h3]

/-- A transport stub that always raises a connection error. -/
def sessFail : PreparedRequest → SendParams → Except PyExc Response :=
  fun _ _ => Except.error { kind := "ConnectionError", msg := "connection refused" }

/-- Witness for claim C9: a raised connection error surfaces from send as
a RuntimeError naming the refused connection. -/
theorem send_wraps_transport_exception_witness :
    (TcExRequest.init.send sessFail false).result =
      Except.error { kind := "RuntimeError", msg := "Failed making HTTP request (connection refused)." } :=
  (send_wraps_transport_exception TcExRequest.init sessFail false
    { kind := "ConnectionError", msg := "connection refused" } rfl).1
